import Mathlib

/-!
Shallow embedding of `seqan3::alignment_range` and its nested iterator
(`include/seqan3/alignment/pairwise/alignment_range.hpp`).

Modelling choices:
* The alignment executor is a state machine: a state type `σ` together with a
  step function `bump : σ → Option α × σ` mirroring the executor's
  `bump()` member, which either yields a result and mutates the executor, or
  signals exhaustion (and may still mutate the executor's internal state).
* `alignment_range` holds `std::unique_ptr<alignment_executor_type>` and a
  `value_type cache`; the unique pointer is modelled as `Option σ`
  (`none` = null pointer), and mutation through the pointer becomes explicit
  state passing: every operation that mutates the range returns the new range.
* `throw std::runtime_error{...}` is modelled as `Except.error` carrying the
  exact message string.
* The iterator stores `alignment_range * range_ptr{}` and `bool at_end{true}`.
  In the state-passing embedding the pointee is passed explicitly, so the
  iterator record keeps only whether `range_ptr` is non-null (`range_ptr :
  Bool`, default `false` for the null default constructor) plus `at_end`.
  Operations that in C++ mutate the range through `range_ptr` take the
  pointed-to range as an argument and return its new value.
-/

namespace Seqan3

/-- Embedding of `seqan3::alignment_range<alignment_executor_type>`: the field
`alignment_executor` models `std::unique_ptr<alignment_executor_type>`
(`none` = null), and `cache` models the `value_type cache{}` member storing the
last read element. -/
structure AlignmentRange (σ α : Type) where
  alignment_executor : Option σ
  cache : α
  deriving Repr, DecidableEq

/-- The default constructor `alignment_range() = default`: null executor
pointer, value-initialized cache. -/
def AlignmentRange.mkDefault (σ α : Type) [Inhabited α] : AlignmentRange σ α :=
  { alignment_executor := none, cache := default }

/-- The owning constructor
`alignment_range(alignment_executor_type && _alignment_executor)`: takes
ownership of the executor (fresh heap allocation holding the moved-in state);
the cache is value-initialized. No pull happens here. -/
def AlignmentRange.ofExecutor {σ α : Type} [Inhabited α] (s : σ) :
    AlignmentRange σ α :=
  { alignment_executor := some s, cache := default }

/-- The message of the `std::runtime_error` thrown by `alignment_range::next`
when no executor buffer is owned. -/
def noExecutorMsg : String := "No alignment execution buffer available."

/-- Embedding of `alignment_range::next()`. Throws when `alignment_executor`
is null; otherwise calls `bump()` once: on a present value the value is moved
into the cache and `true` is returned, on an empty optional `false` is
returned and the cache is left unchanged. In both branches the executor object
(mutated in place in C++) ends in its post-`bump` state. -/
def AlignmentRange.next {σ α : Type} (bump : σ → Option α × σ)
    (r : AlignmentRange σ α) : Except String (Bool × AlignmentRange σ α) :=
  match r.alignment_executor with
  | none => .error noExecutorMsg
  | some s =>
    match bump s with
    | (some v, s2) => .ok (true, { alignment_executor := some s2, cache := v })
    | (none, s2) => .ok (false, { alignment_executor := some s2, cache := r.cache })

/-- Embedding of `alignment_range<...>::alignment_range_iterator`. The field
`range_ptr : Bool` records whether the C++ `range_ptr` pointer is non-null
(the pointee itself is passed explicitly to each operation); `at_end` is the
`bool at_end{true}` member. The default constructor yields
`{range_ptr := false, at_end := true}`, matching the member initializers
`range_ptr{}` (null) and `at_end{true}`. Copy construction/assignment are the
defaulted field-wise copies, which in this embedding is plain value copying. -/
structure AlignmentRangeIterator where
  range_ptr : Bool := false
  at_end : Bool := true
  deriving Repr, DecidableEq

/-- The default-constructed iterator
(`constexpr alignment_range_iterator() noexcept = default`). -/
def AlignmentRangeIterator.mkDefault : AlignmentRangeIterator := {}

/-- Embedding of `operator++(/*pre*/)`: `at_end = !range_ptr->next()`. The
range pointed to by `range_ptr` is passed in and its updated value is
returned; a thrown exception propagates. (The C++ `assert(range_ptr !=
nullptr)` is vacuous here because the pointee is supplied explicitly.) -/
def AlignmentRangeIterator.inc {σ α : Type} (bump : σ → Option α × σ)
    (it : AlignmentRangeIterator) (r : AlignmentRange σ α) :
    Except String (AlignmentRangeIterator × AlignmentRange σ α) :=
  match AlignmentRange.next bump r with
  | .error e => .error e
  | .ok (b, r2) => .ok ({ it with at_end := !b }, r2)

/-- Embedding of the converting constructor
`alignment_range_iterator(alignment_range & range) : range_ptr(&range)
{ ++(*this); }`: stores a non-null pointer to the range, then immediately
increments once (the eager priming pull). An exception from `next()`
propagates out of the constructor. -/
def AlignmentRangeIterator.fromRange {σ α : Type} (bump : σ → Option α × σ)
    (r : AlignmentRange σ α) :
    Except String (AlignmentRangeIterator × AlignmentRange σ α) :=
  match AlignmentRange.next bump r with
  | .error e => .error e
  | .ok (b, r2) => .ok ({ range_ptr := true, at_end := !b }, r2)

/-- Embedding of `alignment_range::begin()`: `return iterator{*this};`. -/
def AlignmentRange.begin {σ α : Type} (bump : σ → Option α × σ)
    (r : AlignmentRange σ α) :
    Except String (AlignmentRangeIterator × AlignmentRange σ α) :=
  AlignmentRangeIterator.fromRange bump r

/-- Embedding of `operator*`: `return range_ptr->cache;`. The pointee range is
passed explicitly; the iterator value itself is not consulted, because in the
source the result is read solely through `range_ptr`. -/
def AlignmentRangeIterator.deref {σ α : Type} (_it : AlignmentRangeIterator)
    (r : AlignmentRange σ α) : α :=
  r.cache

/-- Embedding of `std::ranges::default_sentinel_t`, the stateless sentinel
returned by `alignment_range::end()`. -/
structure DefaultSentinelT where
  deriving Repr, DecidableEq

/-- The sentinel value, as returned by `alignment_range::end()`:
`return {};`. -/
def endMarker : DefaultSentinelT := {}

/-- Embedding of
`operator==(alignment_range_iterator const & lhs, default_sentinel_t const &)`:
`return lhs.at_end;`. -/
def iterEqSentinel (lhs : AlignmentRangeIterator) (_rhs : DefaultSentinelT) :
    Bool :=
  lhs.at_end

/-- Embedding of
`operator==(default_sentinel_t const & lhs, alignment_range_iterator const & rhs)`:
`return rhs == lhs;`. -/
def sentinelEqIter (lhs : DefaultSentinelT) (rhs : AlignmentRangeIterator) :
    Bool :=
  iterEqSentinel rhs lhs

/-- Embedding of
`operator!=(alignment_range_iterator const & lhs, default_sentinel_t const & rhs)`:
`return !(lhs == rhs);`. -/
def iterNeSentinel (lhs : AlignmentRangeIterator) (rhs : DefaultSentinelT) :
    Bool :=
  !(iterEqSentinel lhs rhs)

/-- Embedding of
`operator!=(default_sentinel_t const & lhs, alignment_range_iterator const & rhs)`:
`return rhs != lhs;`. -/
def sentinelNeIter (lhs : DefaultSentinelT) (rhs : AlignmentRangeIterator) :
    Bool :=
  iterNeSentinel rhs lhs

/-- Embedding of the defaulted move constructor/assignment of
`alignment_range` (`alignment_range(alignment_range &&) = default`). The
member-wise move of `std::unique_ptr` leaves the source pointer null; the
member-wise move of the cache transfers its value and leaves the source cache
in a moved-from (valid but unspecified) state, modelled here by the default
value. Returns `(destination, moved-from source)`. -/
def AlignmentRange.moveFrom {σ α : Type} [Inhabited α]
    (a : AlignmentRange σ α) : AlignmentRange σ α × AlignmentRange σ α :=
  ({ alignment_executor := a.alignment_executor, cache := a.cache },
   { alignment_executor := none, cache := default })

/-- A concrete executor used for witnesses: its state is the list of results
it has yet to yield, and `bump` yields the head. It satisfies the producer
contract of §4.2: after signalling exhaustion (state `[]`) every further
`bump` again returns an empty optional. -/
def listBump {α : Type} : List α → Option α × List α
  | [] => (none, [])
  | x :: xs => (some x, xs)

/-- Runs `n` caller-driven increments (`operator++`) starting from an iterator
and the range it points to, propagating any thrown exception. -/
def iterateInc {σ α : Type} (bump : σ → Option α × σ) :
    Nat → AlignmentRangeIterator × AlignmentRange σ α →
    Except String (AlignmentRangeIterator × AlignmentRange σ α)
  | 0, p => .ok p
  | n + 1, p =>
    match AlignmentRangeIterator.inc bump p.1 p.2 with
    | .error e => .error e
    | .ok q => iterateInc bump n q

/-- Obtains an iterator via `begin()` (one priming pull) and then performs `n`
further caller-driven increments. -/
def beginThenInc {σ α : Type} (bump : σ → Option α × σ) (n : Nat)
    (r : AlignmentRange σ α) :
    Except String (AlignmentRangeIterator × AlignmentRange σ α) :=
  match AlignmentRange.begin bump r with
  | .error e => .error e
  | .ok p => iterateInc bump n p

/-- Helper: `begin` behaves exactly like one increment applied to an iterator
whose `range_ptr` was just set (the constructor body is `++(*this)`). -/
theorem begin_eq_inc {σ α : Type} (bump : σ → Option α × σ)
    (r : AlignmentRange σ α) :
    AlignmentRange.begin bump r =
      AlignmentRangeIterator.inc bump { range_ptr := true, at_end := true } r := by
  unfold AlignmentRange.begin AlignmentRangeIterator.fromRange
    AlignmentRangeIterator.inc
  rcases hn : AlignmentRange.next bump r with e | ⟨b, r2⟩ <;> rfl

/-- Helper: `begin` followed by `n` increments equals `n + 1` increments from
a fresh iterator pointing at the range. -/
theorem beginThenInc_eq_iterate {σ α : Type} (bump : σ → Option α × σ)
    (n : Nat) (r : AlignmentRange σ α) :
    beginThenInc bump n r =
      iterateInc bump (n + 1) ({ range_ptr := true, at_end := true }, r) := by
  unfold beginThenInc
  rw [begin_eq_inc]
  show _ = match AlignmentRangeIterator.inc bump { range_ptr := true, at_end := true } r with
    | .error e => .error e
    | .ok q => iterateInc bump n q
  rcases AlignmentRangeIterator.inc bump { range_ptr := true, at_end := true } r with e | q <;> rfl

/-- Helper: running `n + 1` increments over the list executor, where the list
still holds the element `v` at position `n`, succeeds, leaves the iterator
active with `v` in the cache, and consumes exactly the first `n + 1`
elements. -/
theorem iterateInc_listBump {α : Type} :
    ∀ (n : Nat) (l : List α) (c v : α) (hr ae : Bool), l[n]? = some v →
    iterateInc listBump (n + 1) (⟨hr, ae⟩, ⟨some l, c⟩) =
      .ok (⟨hr, false⟩, ⟨some (l.drop (n + 1)), v⟩)
  | 0, l, c, v, hr, ae, h => by
    cases l with
    | nil => simp at h
    | cons x xs =>
      simp only [List.getElem?_cons_zero, Option.some.injEq] at h
      subst h
      rfl
  | n + 1, l, c, v, hr, ae, h => by
    cases l with
    | nil => simp at h
    | cons x xs =>
      simp only [List.getElem?_cons_succ] at h
      have ih := iterateInc_listBump n xs x v hr false h
      show iterateInc listBump (n + 1) (⟨hr, false⟩, ⟨some xs, x⟩) = _
      rw [ih]
      rfl

/-- C1: for a stream owning an executor whose next `bump` yields a value `v`
(the producer has at least one result), `begin()` performs exactly one pull
during iterator construction — the resulting executor state is `s2`, the state
after a single `bump` from `s` — and dereferencing the freshly obtained
iterator yields `v`, the producer's first result, with no explicit increment
by the caller. -/
theorem begin_primes_first_result {σ α : Type} (bump : σ → Option α × σ)
    (s s2 : σ) (v c : α) (h : bump s = (some v, s2)) :
    AlignmentRange.begin bump ⟨some s, c⟩ =
      .ok (⟨true, false⟩, ⟨some s2, v⟩) ∧
    AlignmentRangeIterator.deref ⟨true, false⟩
      (⟨some s2, v⟩ : AlignmentRange σ α) = v := by
  constructor
  · simp [AlignmentRange.begin, AlignmentRangeIterator.fromRange,
      AlignmentRange.next, h]
  · rfl

/-- Witness for C1: the list executor over `[5, 7, 2]` primes to `5`. -/
theorem begin_primes_first_result_witness :
    AlignmentRange.begin listBump (⟨some [5, 7, 2], 0⟩ : AlignmentRange (List Nat) Nat) =
      .ok (⟨true, false⟩, ⟨some [7, 2], 5⟩) ∧
    AlignmentRangeIterator.deref ⟨true, false⟩
      (⟨some [7, 2], 5⟩ : AlignmentRange (List Nat) Nat) = 5 :=
  begin_primes_first_result listBump [5, 7, 2] [7, 2] 5 0 rfl

/-- C2: over a producer yielding the results of list `l` in order, after
`n + 1` successful pulls in total (the priming pull of `begin` plus `n`
further increments), the iterator is still active and dereferencing it
returns exactly `l[n]`, the `(n+1)`-st result in producer order — no
skipping, reordering or duplication. -/
theorem deref_after_n_pulls {α : Type} [Inhabited α] (l : List α) (n : Nat)
    (v : α) (h : l[n]? = some v) :
    ∃ it r2,
      beginThenInc listBump n (AlignmentRange.ofExecutor l) = .ok (it, r2) ∧
      AlignmentRangeIterator.deref it r2 = v ∧
      it.at_end = false := by
  refine ⟨⟨true, false⟩, ⟨some (l.drop (n + 1)), v⟩, ?_, rfl, rfl⟩
  rw [beginThenInc_eq_iterate]
  exact iterateInc_listBump n l default v true true h

/-- Witness for C2: over the producer `[5, 7, 2]`, two total pulls (priming
plus one increment) make dereference return `7`, the second result. -/
theorem deref_after_n_pulls_witness :
    ∃ it r2,
      beginThenInc listBump 1 (AlignmentRange.ofExecutor [5, 7, 2]) = .ok (it, r2) ∧
      AlignmentRangeIterator.deref it r2 = 7 ∧
      it.at_end = false :=
  deref_after_n_pulls [5, 7, 2] 1 7 rfl

/-- C3: `next()` on a stream owning no executor — in particular the
default-constructed stream — always throws the runtime error with the
`NoProducer` message, whatever the executor step function and whatever the
cache holds; it never silently returns `false`. As `next` is deterministic in
the stream value and errors leave it unchanged, every such call fails. -/
theorem next_no_producer_error {σ α : Type} [Inhabited α]
    (bump : σ → Option α × σ) (c : α) :
    AlignmentRange.next bump (AlignmentRange.mkDefault σ α) = .error noExecutorMsg ∧
    AlignmentRange.next bump (⟨none, c⟩ : AlignmentRange σ α) = .error noExecutorMsg :=
  ⟨rfl, rfl⟩

/-- C4: with a producer honouring the §4.2 contract (one step after an empty
pull, the next pull is empty again — hypothesis `hcontract`), an iterator
that compares equal to the end marker while its range's executor is in an
exhausted state stays equal to the end marker after every further sequence of
increments; comparisons themselves are pure and cannot change it. -/
theorem exhaustion_permanent {σ α : Type} (bump : σ → Option α × σ)
    (hcontract : ∀ t u, bump t = (none, u) → (bump u).1 = none) (n : Nat) :
    ∀ (it : AlignmentRangeIterator) (r : AlignmentRange σ α) (s : σ),
      iterEqSentinel it endMarker = true →
      r.alignment_executor = some s → (bump s).1 = none →
      ∃ it2 r2, iterateInc bump n (it, r) = .ok (it2, r2) ∧
        iterEqSentinel it2 endMarker = true := by
  induction n with
  | zero => exact fun it r s h1 _ _ => ⟨it, r, rfl, h1⟩
  | succ n ih =>
    intro it r s h1 h2 h3
    rcases hbs : bump s with ⟨b, u⟩
    rcases b with _ | v
    · obtain ⟨it2, r2, hrun, hend2⟩ := ih ⟨it.range_ptr, true⟩
        ⟨some u, r.cache⟩ u rfl rfl (hcontract s u hbs)
      have hstep : AlignmentRangeIterator.inc bump it r =
          .ok (⟨it.range_ptr, true⟩, ⟨some u, r.cache⟩) := by
        simp [AlignmentRangeIterator.inc, AlignmentRange.next, h2, hbs]
      refine ⟨it2, r2, ?_, hend2⟩
      simp only [iterateInc, hstep]
      exact hrun
    · rw [hbs] at h3
      simp at h3

/-- Witness for C4: the exhausted list executor keeps an end-marker-equal
iterator at the end marker across two further increments. -/
theorem exhaustion_permanent_witness :
    ∃ it2 r2,
      iterateInc listBump 2
        (⟨true, true⟩, (⟨some [], 0⟩ : AlignmentRange (List Nat) Nat)) = .ok (it2, r2) ∧
      iterEqSentinel it2 endMarker = true :=
  exhaustion_permanent listBump
    (fun t u h => by cases t <;> simp_all [listBump]) 2
    ⟨true, true⟩ ⟨some [], 0⟩ [] rfl rfl rfl

/-- C5: move construction/assignment from stream `a` gives a destination
holding exactly `a`'s executor and cached result, leaves the source without an
executor so that every subsequent `next()` on it throws the `NoProducer`
error, and the destination's next pull behaves exactly as `a`'s next pull
would have — iteration continues where `a` left off. -/
theorem move_transfers_ownership {σ α : Type} [Inhabited α]
    (bump : σ → Option α × σ) (a : AlignmentRange σ α) :
    (AlignmentRange.moveFrom a).1.alignment_executor = a.alignment_executor ∧
    (AlignmentRange.moveFrom a).1.cache = a.cache ∧
    (AlignmentRange.moveFrom a).2.alignment_executor = none ∧
    AlignmentRange.next bump (AlignmentRange.moveFrom a).2 = .error noExecutorMsg ∧
    AlignmentRange.next bump (AlignmentRange.moveFrom a).1 = AlignmentRange.next bump a :=
  ⟨rfl, rfl, rfl, rfl, rfl⟩

/-- C6: `next()` on a stream owning an executor in state `s` calls `bump`
exactly once — in every outcome the executor ends in the state reached by a
single `bump` step from `s`. When the pull yields a value `v`, that value is
moved into the cache and `next` returns `true`; when the pull signals
exhaustion, `next` returns `false` and the cache keeps its previous value
unchanged. -/
theorem next_pulls_exactly_once {σ α : Type} (bump : σ → Option α × σ)
    (r : AlignmentRange σ α) (s : σ) (hs : r.alignment_executor = some s) :
    (∀ v u, bump s = (some v, u) →
      AlignmentRange.next bump r = .ok (true, ⟨some u, v⟩)) ∧
    (∀ u, bump s = (none, u) →
      AlignmentRange.next bump r = .ok (false, ⟨some u, r.cache⟩)) := by
  constructor
  · intro v u hb
    simp [AlignmentRange.next, hs, hb]
  · intro u hb
    simp [AlignmentRange.next, hs, hb]

/-- Witness for C6: the list executor over `[5]` yields `5` into the cache
with result `true`; the exhausted executor returns `false` and leaves the
cache at its stale value `7`. -/
theorem next_pulls_exactly_once_witness :
    AlignmentRange.next listBump (⟨some [5], 0⟩ : AlignmentRange (List Nat) Nat) =
      .ok (true, ⟨some [], 5⟩) ∧
    AlignmentRange.next listBump (⟨some [], 7⟩ : AlignmentRange (List Nat) Nat) =
      .ok (false, ⟨some [], 7⟩) :=
  ⟨(next_pulls_exactly_once listBump ⟨some [5], 0⟩ [5] rfl).1 5 [] rfl,
   (next_pulls_exactly_once listBump ⟨some [], 7⟩ [] rfl).2 [] rfl⟩

/-- C7: iterator-sentinel comparison returns exactly the iterator's `at_end`
flag; the swapped-operand equality returns the same value; and both inequality
operators return the negation of the corresponding equality. -/
theorem sentinel_comparison_algebra (it : AlignmentRangeIterator) :
    iterEqSentinel it endMarker = it.at_end ∧
    sentinelEqIter endMarker it = iterEqSentinel it endMarker ∧
    iterNeSentinel it endMarker = !(iterEqSentinel it endMarker) ∧
    sentinelNeIter endMarker it = !(sentinelEqIter endMarker it) :=
  ⟨rfl, rfl, rfl, rfl⟩

/-- C8: `begin()` on a stream owning no executor — default-constructed, with
any cache value, or moved-from — throws the `NoProducer` runtime error during
the priming increment inside iterator construction, before the caller could
dereference or increment. -/
theorem begin_no_producer_error {σ α : Type} [Inhabited α]
    (bump : σ → Option α × σ) (c : α) (a : AlignmentRange σ α) :
    AlignmentRange.begin bump (AlignmentRange.mkDefault σ α) = .error noExecutorMsg ∧
    AlignmentRange.begin bump (⟨none, c⟩ : AlignmentRange σ α) = .error noExecutorMsg ∧
    AlignmentRange.begin bump (AlignmentRange.moveFrom a).2 = .error noExecutorMsg :=
  ⟨rfl, rfl, rfl⟩

/-- C9: the default-constructed iterator has its `at_end` flag initialized to
`true` and therefore compares equal to the end marker, while its `range_ptr`
is null — the comparison consults no stream at all (`iterEqSentinel` takes no
range argument). -/
theorem default_iterator_equals_sentinel :
    AlignmentRangeIterator.mkDefault.at_end = true ∧
    iterEqSentinel AlignmentRangeIterator.mkDefault endMarker = true ∧
    AlignmentRangeIterator.mkDefault.range_ptr = false :=
  ⟨rfl, rfl, rfl⟩

/-- C10: the `at_end` flag lives in the iterator, not in the range. Take an
active iterator `c` (it compares unequal to the end marker) and its field-wise
copy; increment `c` at the point where the producer signals exhaustion. The
incremented iterator compares equal to the end marker, the untouched copy `c`
still compares unequal to it, and yet both dereference to the very same
shared range cache. -/
theorem at_end_is_per_iterator {σ α : Type} (bump : σ → Option α × σ)
    (c : AlignmentRangeIterator) (r : AlignmentRange σ α) (s u : σ)
    (hc : c.at_end = false) (hs : r.alignment_executor = some s)
    (hb : bump s = (none, u)) :
    AlignmentRangeIterator.inc bump c r =
      .ok (⟨c.range_ptr, true⟩, ⟨some u, r.cache⟩) ∧
    iterEqSentinel ⟨c.range_ptr, true⟩ endMarker = true ∧
    iterNeSentinel c endMarker = true ∧
    AlignmentRangeIterator.deref c (⟨some u, r.cache⟩ : AlignmentRange σ α) =
      AlignmentRangeIterator.deref ⟨c.range_ptr, true⟩
        (⟨some u, r.cache⟩ : AlignmentRange σ α) := by
  refine ⟨?_, rfl, ?_, rfl⟩
  · simp [AlignmentRangeIterator.inc, AlignmentRange.next, hs, hb]
  · simp [iterNeSentinel, iterEqSentinel, hc]

/-- Witness for C10: over the exhausted list executor, incrementing one copy
of an active iterator exhausts it while the other copy stays active, both
reading the shared cache `42`. -/
theorem at_end_is_per_iterator_witness :
    AlignmentRangeIterator.inc listBump ⟨true, false⟩
      (⟨some [], 42⟩ : AlignmentRange (List Nat) Nat) =
      .ok (⟨true, true⟩, ⟨some [], 42⟩) ∧
    iterEqSentinel ⟨true, true⟩ endMarker = true ∧
    iterNeSentinel ⟨true, false⟩ endMarker = true ∧
    AlignmentRangeIterator.deref ⟨true, false⟩
      (⟨some [], 42⟩ : AlignmentRange (List Nat) Nat) =
      AlignmentRangeIterator.deref ⟨true, true⟩
        (⟨some [], 42⟩ : AlignmentRange (List Nat) Nat) :=
  at_end_is_per_iterator listBump ⟨true, false⟩ ⟨some [], 42⟩ [] [] rfl rfl rfl

end Seqan3
